import Mathlib

/-!
Verification of the retrieval-augmented answering core of the FAQ bot
(source: src/day3_projects/faq_bot.py).

Modelling conventions:

* Python floats are idealized as exact arithmetic: vector components are
  rationals (ℚ) and similarity scores are reals (ℝ), with math.sqrt modelled
  by Real.sqrt.  round(x, 3) is modelled by round3 below (round half to even
  at the third decimal, as Python's round does on exact values).
* The two upstream HTTP providers (the Ollama embeddings endpoint and the
  Ollama generate endpoint) are modelled as functions from the request text to
  a ProviderJson response, which distinguishes the three behaviours visible
  to the code: a requests.RequestException raised during post/raise_for_status
  (connection error, timeout, non-2xx status), a 2xx response whose body is
  valid JSON (modelled at schema level by the only field the code reads), and
  a 2xx response whose body is not valid JSON.  In the last case
  response.json() raises; since that call sits outside the try block in both
  get_embedding and call_ollama_with_context, the exception propagates, which
  the model renders as Except.error ().
* Python str.strip() is modelled by pyStrip (drop leading and trailing
  whitespace characters).
* Flask request/response plumbing is collapsed: the endpoint takes the string
  value of the "question" field of the request body (str(body.get("question",
  ""))) and returns a FaqResponse (badRequest is the 400 error reply, noMatch
  the fallback JSON without a match_question field, matched the JSON with
  answer, match_question and match_score).  An escaping exception is
  Except.error ().  A Trace records the texts sent to the embeddings provider
  and the prompts sent to the generate provider, so that "no provider call is
  attempted" is a statement about the model rather than about metatheory.
-/

namespace FaqBot

/-! ## Data model -/

/-- One corpus entry, a question/answer pair (an element of faq_data.json). -/
structure FaqItem where
  question : String
  answer : String
  deriving DecidableEq

/-- Behaviour of one upstream HTTP provider call, as distinguished by the
code.  β is the (already JSON-decoded) payload the code reads out of a valid
body. -/
inductive ProviderJson (β : Type) where
  | requestError (exc : String)
  | okJson (value : β)
  | okNonJson
  deriving DecidableEq

/-- The embeddings provider: text ↦ behaviour of the POST to /api/embeddings.
A valid JSON body is read with data.get("embedding"), hence Option. -/
def EmbedProvider : Type := String → ProviderJson (Option (List ℚ))

/-- The completion provider: prompt ↦ behaviour of the POST to /api/generate.
A valid JSON body is read with data.get("response", default), hence Option. -/
def GenProvider : Type := String → ProviderJson (Option String)

/-- Python str.strip(): remove leading and trailing whitespace. -/
def pyStrip (s : String) : String :=
  ⟨List.reverse (List.dropWhile Char.isWhitespace
    (List.reverse (List.dropWhile Char.isWhitespace s.data)))⟩

/-! ## cosine_similarity (faq_bot.py lines 23-35) -/

/-- sum(a * b for a, b in zip(vec_a, vec_b)). -/
def dotList (vec_a vec_b : List ℚ) : ℚ :=
  (List.map (fun p => p.1 * p.2) (List.zip vec_a vec_b)).sum

/-- sum(a * a for a in vec) — the radicand of math.sqrt in norm_a/norm_b. -/
def sumSq (vec : List ℚ) : ℚ :=
  (List.map (fun x => x * x) vec).sum

/-- cosine_similarity: 0.0 when either vector is empty or the lengths differ;
0.0 when either norm (math.sqrt of the sum of squares) is exactly 0;
otherwise dot_product / (norm_a * norm_b). -/
noncomputable def cosine_similarity (vec_a vec_b : List ℚ) : ℝ :=
  if vec_a = [] ∨ vec_b = [] ∨ vec_a.length ≠ vec_b.length then 0
  else
    let dot_product : ℝ := (dotList vec_a vec_b : ℚ)
    let norm_a : ℝ := Real.sqrt ((sumSq vec_a : ℚ) : ℝ)
    let norm_b : ℝ := Real.sqrt ((sumSq vec_b : ℚ) : ℝ)
    if norm_a = 0 ∨ norm_b = 0 then 0
    else dot_product / (norm_a * norm_b)

/-! ## get_embedding (lines 44-57) and the index build (lines 60-76) -/

/-- get_embedding: a RequestException from the post/raise_for_status is caught
and yields None; on a 2xx response, data = response.json() is evaluated
outside the try block, so a non-JSON body raises (Except.error), and
otherwise data.get("embedding") is returned. -/
def get_embedding (provider : EmbedProvider) (text : String) :
    Except Unit (Option (List ℚ)) :=
  match provider text with
  | .requestError _ => Except.ok none
  | .okJson embedding => Except.ok embedding
  | .okNonJson => Except.error ()

/-- The embedding input text built for a corpus entry:
"Question: " plus the question, a newline, "Answer: " plus the answer. -/
def embed_input (item : FaqItem) : String :=
  "Question: " ++ item.question ++ "\nAnswer: " ++ item.answer

/-- The vector list accumulated by the build loop: one vector per item, the
empty list when get_embedding returned None; an escaping exception from
get_embedding aborts the loop. -/
def build_vectors (provider : EmbedProvider) : List FaqItem → Except Unit (List (List ℚ))
  | [] => Except.ok []
  | item :: rest =>
    match get_embedding provider (embed_input item) with
    | Except.error e => Except.error e
    | Except.ok none =>
      match build_vectors provider rest with
      | Except.error e => Except.error e
      | Except.ok vs => Except.ok ([] :: vs)
    | Except.ok (some v) =>
      match build_vectors provider rest with
      | Except.error e => Except.error e
      | Except.ok vs => Except.ok (v :: vs)

/-- build_repository_with_embeddings: returns the items unchanged paired with
their cached embedding vectors. -/
def build_repository_with_embeddings (provider : EmbedProvider)
    (faq_items : List FaqItem) : Except Unit (List FaqItem × List (List ℚ)) :=
  match build_vectors provider faq_items with
  | Except.error e => Except.error e
  | Except.ok vs => Except.ok (faq_items, vs)

/-! ## rank_faq_items (lines 82-94) -/

/-- The scored list before sorting: cosine similarity of the question vector
against each cached vector, paired with the item (zip(FAQ_VECTORS, FAQ_ITEMS)).
The item type is kept abstract, as the code never inspects the dict here. -/
noncomputable def scored_items {α : Type} (question_vector : List ℚ)
    (vectors : List (List ℚ)) (items : List α) : List (ℝ × α) :=
  List.map (fun p => (cosine_similarity question_vector p.1, p.2))
    (List.zip vectors items)

/-- The comparator realised by list.sort(key=lambda pair: pair[0],
reverse=True): a stable sort that orders pairs by descending first component.
-/
noncomputable def byScoreDesc {α : Type} (x y : ℝ × α) : Bool :=
  decide (y.1 ≤ x.1)

/-- rank_faq_items: embed the question (None short-circuits to the empty
list), score every corpus entry, and stable-sort by descending score. -/
noncomputable def rank_faq_items {α : Type} (provider : EmbedProvider)
    (vectors : List (List ℚ)) (items : List α) (question : String) :
    Except Unit (List (ℝ × α)) :=
  match get_embedding provider question with
  | Except.error e => Except.error e
  | Except.ok none => Except.ok []
  | Except.ok (some question_vector) =>
    Except.ok ((scored_items question_vector vectors items).mergeSort byScoreDesc)

/-! ## call_ollama_with_context (lines 97-123) -/

/-- The grounding prompt assembled for the completion provider. -/
def ollama_prompt (question context_answer : String) : String :=
  "You are a helpful FAQ assistant. Use the provided answer as trusted" ++
  " context to respond to the user's question. If the context does not" ++
  " cover the question, say you are unsure and ask the user to rephrase.\n\n" ++
  "Context answer: " ++ context_answer ++ "\n" ++
  "User question: " ++ question ++ "\n" ++
  "Respond in 2-3 friendly sentences."

/-- The degraded-service reply produced when the completion provider raises a
RequestException, with the exception text interpolated at the end. -/
def degraded_answer (exc : String) : String :=
  "I found a similar answer but could not reach the AI writer. " ++
  "Please try again later. Technical details: " ++ exc

/-- call_ollama_with_context: a RequestException is caught and yields the
degraded-service message; on a 2xx response, data = response.json() is again
outside the try block, so a non-JSON body raises; otherwise
data.get("response", context_answer) is returned. -/
def call_ollama_with_context (provider : GenProvider)
    (question context_answer : String) : Except Unit String :=
  match provider (ollama_prompt question context_answer) with
  | .requestError exc => Except.ok (degraded_answer exc)
  | .okJson response => Except.ok (response.getD context_answer)
  | .okNonJson => Except.error ()

/-! ## The /faq endpoint (lines 126-157) -/

/-- Python's round half to even on an exact real. -/
noncomputable def pyRound (x : ℝ) : ℤ :=
  if Int.fract x = 1 / 2 then 2 * round (x / 2) else round x

/-- round(x, 3). -/
noncomputable def round3 (x : ℝ) : ℝ :=
  (pyRound (x * 1000) : ℝ) / 1000

/-- The three JSON replies faq_endpoint can produce: the 400 error for a blank
question, the fallback reply (no match_question field), and the matched reply.
-/
inductive FaqResponse where
  | badRequest (error : String)
  | noMatch (answer : String) (match_score : ℝ)
  | matched (answer : String) (match_question : String) (match_score : ℝ)

/-- The provider calls issued while handling one request. -/
structure Trace where
  embed_texts : List String
  gen_prompts : List String
  deriving DecidableEq

/-- The fixed fallback message of the endpoint. -/
def no_match_answer : String :=
  "I could not find a close match. Please rephrase or ask a team member."

/-- faq_endpoint: strip the question, reject a blank one with a 400 reply
before any provider call, rank the corpus, take ranked[0] if any (else score
0.0 and no item), fall back when there is no item or the top score is below
0.5, otherwise ground the completion provider on the top answer.  Scores are
rounded to three decimals in the reply. -/
noncomputable def faq_endpoint (embed : EmbedProvider) (generate : GenProvider)
    (vectors : List (List ℚ)) (items : List FaqItem) (body_question : String) :
    Except Unit FaqResponse × Trace :=
  let question := pyStrip body_question
  if question = "" then
    (Except.ok (FaqResponse.badRequest "Please send a question."), ⟨[], []⟩)
  else
    match rank_faq_items embed vectors items question with
    | Except.error e => (Except.error e, ⟨[question], []⟩)
    | Except.ok ranked =>
      match ranked with
      | [] =>
        (Except.ok (FaqResponse.noMatch no_match_answer (round3 0)), ⟨[question], []⟩)
      | (top_score, top_item) :: _ =>
        if top_score < 0.5 then
          (Except.ok (FaqResponse.noMatch no_match_answer (round3 top_score)),
            ⟨[question], []⟩)
        else
          match call_ollama_with_context generate question top_item.answer with
          | Except.error e =>
            (Except.error e, ⟨[question], [ollama_prompt question top_item.answer]⟩)
          | Except.ok generated =>
            (Except.ok (FaqResponse.matched generated top_item.question
                (round3 top_score)),
              ⟨[question], [ollama_prompt question top_item.answer]⟩)

/-! ## Vector arithmetic lemmas -/

theorem dotList_nil_left (b : List ℚ) : dotList [] b = 0 := by
  simp [dotList]

theorem dotList_nil_right (a : List ℚ) : dotList a [] = 0 := by
  simp [dotList]

theorem dotList_cons (x y : ℚ) (xs ys : List ℚ) :
    dotList (x :: xs) (y :: ys) = x * y + dotList xs ys := by
  simp [dotList, List.zip_cons_cons]

theorem sumSq_nil : sumSq [] = 0 := by
  simp [sumSq]

theorem sumSq_cons (x : ℚ) (xs : List ℚ) : sumSq (x :: xs) = x * x + sumSq xs := by
  simp [sumSq]

theorem dotList_comm (a : List ℚ) : ∀ b, dotList a b = dotList b a := by
  induction a with
  | nil => intro b; rw [dotList_nil_left, dotList_nil_right]
  | cons x xs ih =>
    intro b
    cases b with
    | nil => rw [dotList_nil_left, dotList_nil_right]
    | cons y ys => rw [dotList_cons, dotList_cons, ih, mul_comm]

theorem dotList_self (a : List ℚ) : dotList a a = sumSq a := by
  induction a with
  | nil => rw [dotList_nil_left, sumSq_nil]
  | cons x xs ih => rw [dotList_cons, sumSq_cons, ih]

theorem sumSq_nonneg (a : List ℚ) : 0 ≤ sumSq a := by
  induction a with
  | nil => rw [sumSq_nil]
  | cons x xs ih =>
    rw [sumSq_cons]
    nlinarith [mul_self_nonneg x]

theorem sumSq_pos {a : List ℚ} (h : ∃ x ∈ a, x ≠ 0) : 0 < sumSq a := by
  induction a with
  | nil => simp at h
  | cons y ys ih =>
    rw [sumSq_cons]
    rcases h with ⟨x, hx, hx0⟩
    rcases List.mem_cons.mp hx with rfl | hmem
    · nlinarith [sumSq_nonneg ys, mul_self_pos.mpr hx0]
    · nlinarith [ih ⟨x, hmem, hx0⟩, mul_self_nonneg y]

theorem cs_step (x y d sa sb : ℚ) (hd : d ^ 2 ≤ sa * sb) (hsa : 0 ≤ sa)
    (hsb : 0 ≤ sb) : (x * y + d) ^ 2 ≤ (x * x + sa) * (y * y + sb) := by
  rcases eq_or_lt_of_le hsb with hb0 | hb0
  · have hd0 : d = 0 := by nlinarith [sq_nonneg d]
    subst hd0
    nlinarith [mul_nonneg hsa (sq_nonneg y), mul_nonneg hsa hsb, sq_nonneg (x * y)]
  · nlinarith [sq_nonneg (x * sb - y * d), mul_nonneg (sq_nonneg y) (sub_nonneg.mpr hd),
      mul_nonneg hsb (sub_nonneg.mpr hd), mul_nonneg hsa hsb]

/-- Cauchy–Schwarz for the list dot product, with no length hypothesis needed.
-/
theorem dotList_sq_le (a : List ℚ) : ∀ b, dotList a b ^ 2 ≤ sumSq a * sumSq b := by
  induction a with
  | nil =>
    intro b
    rw [dotList_nil_left, sumSq_nil]
    norm_num
  | cons x xs ih =>
    intro b
    cases b with
    | nil =>
      rw [dotList_nil_right, sumSq_nil]
      norm_num
    | cons y ys =>
      rw [dotList_cons, sumSq_cons, sumSq_cons]
      exact cs_step x y (dotList xs ys) (sumSq xs) (sumSq ys) (ih ys)
        (sumSq_nonneg xs) (sumSq_nonneg ys)

/-- The code's norm_a == 0 test is equivalent to its radicand being 0, since
the radicand is a sum of squares. -/
theorem sqrt_sumSq_eq_zero_iff (a : List ℚ) :
    Real.sqrt ((sumSq a : ℚ) : ℝ) = 0 ↔ sumSq a = 0 := by
  rw [Real.sqrt_eq_zero']
  constructor
  · intro h
    have h0 : (0 : ℝ) ≤ ((sumSq a : ℚ) : ℝ) := by exact_mod_cast sumSq_nonneg a
    exact_mod_cast le_antisymm h h0
  · intro h
    rw [h]
    norm_num

/-! ## cosine_similarity case lemmas -/

theorem cosine_similarity_of_degenerate {a b : List ℚ}
    (h : a = [] ∨ b = [] ∨ a.length ≠ b.length) : cosine_similarity a b = 0 := by
  simp only [cosine_similarity]
  rw [if_pos h]

theorem cosine_similarity_of_zero_radicand {a b : List ℚ}
    (h : sumSq a = 0 ∨ sumSq b = 0) : cosine_similarity a b = 0 := by
  simp only [cosine_similarity]
  by_cases h1 : a = [] ∨ b = [] ∨ a.length ≠ b.length
  · rw [if_pos h1]
  · rw [if_neg h1, if_pos]
    rcases h with h | h
    · exact Or.inl ((sqrt_sumSq_eq_zero_iff a).mpr h)
    · exact Or.inr ((sqrt_sumSq_eq_zero_iff b).mpr h)

theorem cosine_similarity_eq_div {a b : List ℚ}
    (ha : a ≠ []) (hb : b ≠ []) (hlen : a.length = b.length)
    (hsa : sumSq a ≠ 0) (hsb : sumSq b ≠ 0) :
    cosine_similarity a b = (dotList a b : ℚ) /
      (Real.sqrt ((sumSq a : ℚ) : ℝ) * Real.sqrt ((sumSq b : ℚ) : ℝ)) := by
  simp only [cosine_similarity]
  rw [if_neg (by push_neg; exact ⟨ha, hb, hlen⟩), if_neg]
  push_neg
  exact ⟨fun e => hsa ((sqrt_sumSq_eq_zero_iff a).mp e),
    fun e => hsb ((sqrt_sumSq_eq_zero_iff b).mp e)⟩

/-- Closed-form evaluation of a non-degenerate cosine similarity when the two
norms are known exactly. -/
theorem cosine_similarity_eval {a b : List ℚ} {na nb : ℝ}
    (ha : a ≠ []) (hb : b ≠ []) (hlen : a.length = b.length)
    (hna : 0 < na) (hnb : 0 < nb)
    (ha2 : ((sumSq a : ℚ) : ℝ) = na ^ 2) (hb2 : ((sumSq b : ℚ) : ℝ) = nb ^ 2) :
    cosine_similarity a b = (dotList a b : ℚ) / (na * nb) := by
  have hsa : sumSq a ≠ 0 := by
    intro h
    rw [h] at ha2
    push_cast at ha2
    nlinarith [mul_pos hna hna]
  have hsb : sumSq b ≠ 0 := by
    intro h
    rw [h] at hb2
    push_cast at hb2
    nlinarith [mul_pos hnb hnb]
  rw [cosine_similarity_eq_div ha hb hlen hsa hsb, ha2, hb2,
    Real.sqrt_sq hna.le, Real.sqrt_sq hnb.le]

theorem cosine_similarity_mem_Icc {a b : List ℚ}
    (ha : a ≠ []) (hb : b ≠ []) (hlen : a.length = b.length)
    (hsa : sumSq a ≠ 0) (hsb : sumSq b ≠ 0) :
    -1 ≤ cosine_similarity a b ∧ cosine_similarity a b ≤ 1 := by
  have hsa0 : (0 : ℝ) < ((sumSq a : ℚ) : ℝ) := by
    exact_mod_cast lt_of_le_of_ne (sumSq_nonneg a) (Ne.symm hsa)
  have hsb0 : (0 : ℝ) < ((sumSq b : ℚ) : ℝ) := by
    exact_mod_cast lt_of_le_of_ne (sumSq_nonneg b) (Ne.symm hsb)
  have hra : 0 < Real.sqrt ((sumSq a : ℚ) : ℝ) := Real.sqrt_pos.mpr hsa0
  have hrb : 0 < Real.sqrt ((sumSq b : ℚ) : ℝ) := Real.sqrt_pos.mpr hsb0
  have hcs : ((dotList a b : ℚ) : ℝ) ^ 2 ≤ ((sumSq a : ℚ) : ℝ) * ((sumSq b : ℚ) : ℝ) := by
    exact_mod_cast dotList_sq_le a b
  have habs : |((dotList a b : ℚ) : ℝ)| ≤
      Real.sqrt ((sumSq a : ℚ) : ℝ) * Real.sqrt ((sumSq b : ℚ) : ℝ) := by
    rw [← Real.sqrt_sq_eq_abs, ← Real.sqrt_mul hsa0.le]
    exact Real.sqrt_le_sqrt hcs
  rw [abs_le] at habs
  rw [cosine_similarity_eq_div ha hb hlen hsa hsb]
  constructor
  · rw [le_div_iff₀ (by positivity)]
    nlinarith [habs.1]
  · rw [div_le_one (by positivity)]
    exact habs.2

theorem cosine_similarity_comm (a b : List ℚ) :
    cosine_similarity a b = cosine_similarity b a := by
  by_cases h1 : a = [] ∨ b = [] ∨ a.length ≠ b.length
  · have h2 : b = [] ∨ a = [] ∨ b.length ≠ a.length := by tauto
    rw [cosine_similarity_of_degenerate h1, cosine_similarity_of_degenerate h2]
  · by_cases h3 : sumSq a = 0 ∨ sumSq b = 0
    · rw [cosine_similarity_of_zero_radicand h3,
        cosine_similarity_of_zero_radicand (Or.symm h3)]
    · push_neg at h1 h3
      obtain ⟨ha, hb, hlen⟩ := h1
      obtain ⟨hsa, hsb⟩ := h3
      rw [cosine_similarity_eq_div ha hb hlen hsa hsb,
        cosine_similarity_eq_div hb ha hlen.symm hsb hsa,
        dotList_comm, mul_comm]

theorem cosine_similarity_self {a : List ℚ} (h : ∃ x ∈ a, x ≠ 0) :
    cosine_similarity a a = 1 := by
  have hpos := sumSq_pos h
  have ha : a ≠ [] := by
    rintro rfl
    simp at h
  rw [cosine_similarity_eq_div ha ha rfl hpos.ne' hpos.ne',
    Real.mul_self_sqrt (by exact_mod_cast hpos.le), dotList_self,
    div_self (by exact_mod_cast hpos.ne')]

/-! ## Claims C2 and C9 -/

/-- Claim C2: cosine_similarity is total and never yields an undefined value:
whenever either vector is empty, or the lengths differ, or either norm is
exactly 0, the result is exactly 0; in every other case the result lies
between -1 and 1. -/
theorem C2_cosine_similarity_total_bounded (a b : List ℚ) :
    ((a = [] ∨ b = [] ∨ a.length ≠ b.length ∨
        Real.sqrt ((sumSq a : ℚ) : ℝ) = 0 ∨ Real.sqrt ((sumSq b : ℚ) : ℝ) = 0) →
      cosine_similarity a b = 0) ∧
    (¬(a = [] ∨ b = [] ∨ a.length ≠ b.length ∨
        Real.sqrt ((sumSq a : ℚ) : ℝ) = 0 ∨ Real.sqrt ((sumSq b : ℚ) : ℝ) = 0) →
      -1 ≤ cosine_similarity a b ∧ cosine_similarity a b ≤ 1) := by
  constructor
  · intro h
    rcases h with h | h | h | h | h
    · exact cosine_similarity_of_degenerate (Or.inl h)
    · exact cosine_similarity_of_degenerate (Or.inr (Or.inl h))
    · exact cosine_similarity_of_degenerate (Or.inr (Or.inr h))
    · exact cosine_similarity_of_zero_radicand (Or.inl ((sqrt_sumSq_eq_zero_iff a).mp h))
    · exact cosine_similarity_of_zero_radicand (Or.inr ((sqrt_sumSq_eq_zero_iff b).mp h))
  · intro h
    push_neg at h
    obtain ⟨ha, hb, hlen, hna, hnb⟩ := h
    exact cosine_similarity_mem_Icc ha hb hlen
      (fun e => hna ((sqrt_sumSq_eq_zero_iff a).mpr e))
      (fun e => hnb ((sqrt_sumSq_eq_zero_iff b).mpr e))

/-- Concrete instance of claim C2: the empty vector scores exactly 0 against
[1], and the score of [1] against [1] lies between -1 and 1. -/
theorem C2_witness :
    cosine_similarity [] [1] = 0 ∧
    (-1 ≤ cosine_similarity [1] [1] ∧ cosine_similarity [1] [1] ≤ 1) := by
  constructor
  · exact (C2_cosine_similarity_total_bounded [] [1]).1 (Or.inl rfl)
  · refine (C2_cosine_similarity_total_bounded [1] [1]).2 ?_
    have h1 : sumSq [(1 : ℚ)] = 1 := by
      rw [sumSq_cons, sumSq_nil]
      norm_num
    push_neg
    refine ⟨by simp, by simp, rfl, ?_, ?_⟩ <;>
      rw [h1] <;> push_cast <;> rw [Real.sqrt_one] <;> norm_num

/-- Claim C9: cosine similarity is symmetric on vectors of equal nonzero
length, and the similarity of a nonzero vector with itself is 1 up to the
10^-9 tolerance (here it is exactly 1, the tolerance is trivially met). -/
theorem C9_cosine_similarity_symm_self :
    (∀ a b : List ℚ, a.length = b.length → a ≠ [] →
      cosine_similarity a b = cosine_similarity b a) ∧
    (∀ a : List ℚ, (∃ x ∈ a, x ≠ 0) → |cosine_similarity a a - 1| ≤ 1e-9) := by
  constructor
  · intro a b _ _
    exact cosine_similarity_comm a b
  · intro a h
    rw [cosine_similarity_self h]
    norm_num

/-- Concrete instance of claim C9 at the vectors [1] and [2]. -/
theorem C9_witness :
    cosine_similarity [1] [2] = cosine_similarity [2] [1] ∧
    |cosine_similarity [1] [1] - 1| ≤ 1e-9 :=
  ⟨C9_cosine_similarity_symm_self.1 [1] [2] rfl (by simp),
   C9_cosine_similarity_symm_self.2 [1] ⟨1, by simp, by norm_num⟩⟩

/-! ## Rounding lemmas -/

theorem pyRound_intCast (n : ℤ) : pyRound ((n : ℝ)) = n := by
  unfold pyRound
  rw [Int.fract_intCast, if_neg (by norm_num)]
  exact round_intCast n

theorem round3_zero : round3 0 = 0 := by
  unfold round3
  rw [show ((0 : ℝ) * 1000) = ((0 : ℤ) : ℝ) by norm_num, pyRound_intCast]
  norm_num

theorem round3_one : round3 1 = 1 := by
  unfold round3
  rw [show ((1 : ℝ) * 1000) = ((1000 : ℤ) : ℝ) by norm_num, pyRound_intCast]
  norm_num

theorem round3_twelve_thirteenths : round3 ((12 : ℝ) / 13) = 923 / 1000 := by
  have hfl : ⌊(12000 : ℝ) / 13⌋ = 923 := by
    rw [Int.floor_eq_iff]
    norm_num
  have hfr : Int.fract ((12000 : ℝ) / 13) ≠ 1 / 2 := by
    rw [Int.fract, hfl]
    norm_num
  have hrd : round ((12000 : ℝ) / 13) = 923 := by
    rw [round_eq, show (12000 : ℝ) / 13 + 1 / 2 = 24013 / 26 by norm_num,
      Int.floor_eq_iff]
    norm_num
  unfold round3 pyRound
  rw [show (12 : ℝ) / 13 * 1000 = 12000 / 13 by norm_num, if_neg hfr, hrd]
  norm_num

theorem round3_five_thirteenths : round3 ((5 : ℝ) / 13) = 385 / 1000 := by
  have hfl : ⌊(5000 : ℝ) / 13⌋ = 384 := by
    rw [Int.floor_eq_iff]
    norm_num
  have hfr : Int.fract ((5000 : ℝ) / 13) ≠ 1 / 2 := by
    rw [Int.fract, hfl]
    norm_num
  have hrd : round ((5000 : ℝ) / 13) = 385 := by
    rw [round_eq, show (5000 : ℝ) / 13 + 1 / 2 = 10013 / 26 by norm_num,
      Int.floor_eq_iff]
    norm_num
  unfold round3 pyRound
  rw [show (5 : ℝ) / 13 * 1000 = 5000 / 13 by norm_num, if_neg hfr, hrd]
  norm_num

/-! ## Concrete cosine similarity values used in witnesses -/

theorem cosine_one : cosine_similarity [1] [1] = 1 :=
  cosine_similarity_self ⟨1, by simp, by norm_num⟩

theorem cosine_twelve_thirteenths : cosine_similarity [1, 0] [12, 5] = 12 / 13 := by
  have h := @cosine_similarity_eval [1, 0] [12, 5] 1 13 (by simp) (by simp) rfl
    (by norm_num) (by norm_num)
    (by rw [sumSq_cons, sumSq_cons, sumSq_nil]; push_cast; norm_num)
    (by rw [sumSq_cons, sumSq_cons, sumSq_nil]; push_cast; norm_num)
  rw [h, dotList_cons, dotList_cons, dotList_nil_left]
  push_cast
  norm_num

theorem cosine_five_thirteenths : cosine_similarity [1, 0] [5, 12] = 5 / 13 := by
  have h := @cosine_similarity_eval [1, 0] [5, 12] 1 13 (by simp) (by simp) rfl
    (by norm_num) (by norm_num)
    (by rw [sumSq_cons, sumSq_cons, sumSq_nil]; push_cast; norm_num)
    (by rw [sumSq_cons, sumSq_cons, sumSq_nil]; push_cast; norm_num)
  rw [h, dotList_cons, dotList_cons, dotList_nil_left]
  push_cast
  norm_num

/-! ## Branch lemmas for faq_endpoint -/

theorem faq_endpoint_blank (embed : EmbedProvider) (generate : GenProvider)
    (vectors : List (List ℚ)) (items : List FaqItem) (q : String)
    (hq : pyStrip q = "") :
    faq_endpoint embed generate vectors items q =
      (Except.ok (FaqResponse.badRequest "Please send a question."), ⟨[], []⟩) := by
  simp [faq_endpoint, hq]

theorem faq_endpoint_embed_raise (embed : EmbedProvider) (generate : GenProvider)
    (vectors : List (List ℚ)) (items : List FaqItem) (q : String)
    (hq : pyStrip q ≠ "")
    (hrank : rank_faq_items embed vectors items (pyStrip q) =
      (Except.error () : Except Unit (List (ℝ × FaqItem)))) :
    faq_endpoint embed generate vectors items q =
      (Except.error (), ⟨[pyStrip q], []⟩) := by
  simp [faq_endpoint, hq, hrank]

theorem faq_endpoint_empty_ranked (embed : EmbedProvider) (generate : GenProvider)
    (vectors : List (List ℚ)) (items : List FaqItem) (q : String)
    (hq : pyStrip q ≠ "")
    (hrank : rank_faq_items embed vectors items (pyStrip q) =
      Except.ok ([] : List (ℝ × FaqItem))) :
    faq_endpoint embed generate vectors items q =
      (Except.ok (FaqResponse.noMatch no_match_answer (round3 0)),
        ⟨[pyStrip q], []⟩) := by
  simp [faq_endpoint, hq, hrank]

theorem faq_endpoint_low_score (embed : EmbedProvider) (generate : GenProvider)
    (vectors : List (List ℚ)) (items : List FaqItem) (q : String)
    (s : ℝ) (it : FaqItem) (rest : List (ℝ × FaqItem))
    (hq : pyStrip q ≠ "")
    (hrank : rank_faq_items embed vectors items (pyStrip q) =
      Except.ok ((s, it) :: rest))
    (hs : s < 0.5) :
    faq_endpoint embed generate vectors items q =
      (Except.ok (FaqResponse.noMatch no_match_answer (round3 s)),
        ⟨[pyStrip q], []⟩) := by
  simp [faq_endpoint, hq, hrank, hs]

theorem faq_endpoint_gen_result (embed : EmbedProvider) (generate : GenProvider)
    (vectors : List (List ℚ)) (items : List FaqItem) (q : String)
    (s : ℝ) (it : FaqItem) (rest : List (ℝ × FaqItem)) (gen : String)
    (hq : pyStrip q ≠ "")
    (hrank : rank_faq_items embed vectors items (pyStrip q) =
      Except.ok ((s, it) :: rest))
    (hs : ¬ s < 0.5)
    (hcall : call_ollama_with_context generate (pyStrip q) it.answer =
      Except.ok gen) :
    faq_endpoint embed generate vectors items q =
      (Except.ok (FaqResponse.matched gen it.question (round3 s)),
        ⟨[pyStrip q], [ollama_prompt (pyStrip q) it.answer]⟩) := by
  simp [faq_endpoint, hq, hrank, hs, hcall]

theorem faq_endpoint_gen_raise (embed : EmbedProvider) (generate : GenProvider)
    (vectors : List (List ℚ)) (items : List FaqItem) (q : String)
    (s : ℝ) (it : FaqItem) (rest : List (ℝ × FaqItem))
    (hq : pyStrip q ≠ "")
    (hrank : rank_faq_items embed vectors items (pyStrip q) =
      Except.ok ((s, it) :: rest))
    (hs : ¬ s < 0.5)
    (hcall : call_ollama_with_context generate (pyStrip q) it.answer =
      (Except.error () : Except Unit String)) :
    faq_endpoint embed generate vectors items q =
      (Except.error (), ⟨[pyStrip q], [ollama_prompt (pyStrip q) it.answer]⟩) := by
  simp [faq_endpoint, hq, hrank, hs, hcall]

/-! ## Sorting lemmas -/

theorem byScoreDesc_trans {α : Type} : ∀ x y z : ℝ × α,
    byScoreDesc x y = true → byScoreDesc y z = true → byScoreDesc x z = true := by
  intro x y z hxy hyz
  simp only [byScoreDesc, decide_eq_true_eq] at hxy hyz ⊢
  exact le_trans hyz hxy

theorem byScoreDesc_total {α : Type} : ∀ x y : ℝ × α,
    (byScoreDesc x y || byScoreDesc y x) = true := by
  intro x y
  simp only [byScoreDesc, Bool.or_eq_true, decide_eq_true_eq]
  exact le_total y.1 x.1

/-- Two positions i < j of a list, read in order, form a sublist. -/
theorem pair_sublist_of_get {β : Type} {l : List β} {i j : ℕ} (hij : i < j)
    (hj : j < l.length) :
    [l.get ⟨i, lt_trans hij hj⟩, l.get ⟨j, hj⟩].Sublist l := by
  have hi : i < l.length := lt_trans hij hj
  have h1 : l.drop i = l.get ⟨i, hi⟩ :: l.drop (i + 1) := by
    rw [List.drop_eq_getElem_cons hi]
    simp [List.get_eq_getElem]
  have h2 : l.drop j = l.get ⟨j, hj⟩ :: l.drop (j + 1) := by
    rw [List.drop_eq_getElem_cons hj]
    simp [List.get_eq_getElem]
  have h3 : l.drop j = (l.drop (i + 1)).drop (j - (i + 1)) := by
    rw [List.drop_drop]
    congr 1
    omega
  have h4 : [l.get ⟨j, hj⟩].Sublist (l.drop (i + 1)) := by
    have h5 : [l.get ⟨j, hj⟩].Sublist (l.drop j) := by
      rw [h2]
      exact (List.nil_sublist _).cons₂ _
    rw [h3] at h5
    exact h5.trans (List.drop_sublist _ _)
  have h6 : (l.get ⟨i, hi⟩ :: [l.get ⟨j, hj⟩]).Sublist (l.drop i) := by
    rw [h1]
    exact h4.cons₂ _
  exact h6.trans (List.drop_sublist _ _)

/-! ## Claim C3 -/

/-- Claim C3: the ranked output is sorted in descending order of score, and
for two corpus positions with equal scores the entry at the smaller original
index appears before the other in the output (list.sort is stable), so the
ranking is deterministic for identical inputs. -/
theorem C3_rank_sorted_stable {α : Type} (embed : EmbedProvider)
    (vectors : List (List ℚ)) (items : List α) (question : String)
    (question_vector : List ℚ) (out : List (ℝ × α))
    (hqv : get_embedding embed question = Except.ok (some question_vector))
    (hout : rank_faq_items embed vectors items question = Except.ok out) :
    out.Pairwise (fun x y => y.1 ≤ x.1) ∧
    (∀ i j (hij : i < j) (hj : j < (scored_items question_vector vectors items).length),
      ((scored_items question_vector vectors items).get ⟨i, lt_trans hij hj⟩).1 =
        ((scored_items question_vector vectors items).get ⟨j, hj⟩).1 →
      [(scored_items question_vector vectors items).get ⟨i, lt_trans hij hj⟩,
        (scored_items question_vector vectors items).get ⟨j, hj⟩].Sublist out) := by
  have hout2 : (scored_items question_vector vectors items).mergeSort byScoreDesc
      = out := by
    simp only [rank_faq_items, hqv, Except.ok.injEq] at hout
    exact hout
  subst hout2
  constructor
  · exact (List.sorted_mergeSort byScoreDesc_trans byScoreDesc_total
      (scored_items question_vector vectors items)).imp
      (fun hxy => by simpa [byScoreDesc, decide_eq_true_eq] using hxy)
  · intro i j hij hj heq
    refine List.pair_sublist_mergeSort byScoreDesc_trans byScoreDesc_total ?_
      (pair_sublist_of_get hij hj)
    simp only [byScoreDesc, decide_eq_true_eq, heq, le_refl]

/-- Concrete instance of claim C3 on a one-entry corpus. -/
theorem C3_witness :
    ([(cosine_similarity [1] [1], "entry")] :
        List (ℝ × String)).Pairwise (fun x y => y.1 ≤ x.1) ∧
    (∀ i j (hij : i < j) (hj : j < (scored_items [1] [[1]] ["entry"]).length),
      ((scored_items [1] [[1]] ["entry"]).get ⟨i, lt_trans hij hj⟩).1 =
        ((scored_items [1] [[1]] ["entry"]).get ⟨j, hj⟩).1 →
      [(scored_items [1] [[1]] ["entry"]).get ⟨i, lt_trans hij hj⟩,
        (scored_items [1] [[1]] ["entry"]).get ⟨j, hj⟩].Sublist
        [(cosine_similarity [1] [1], "entry")]) :=
  C3_rank_sorted_stable (fun _ => ProviderJson.okJson (some [1])) [[1]] ["entry"]
    "hello" [1] [(cosine_similarity [1] [1], "entry")] rfl
    (by simp [rank_faq_items, get_embedding, scored_items])

/-! ## Claim C4 -/

/-- Claim C4: a query that strips to the empty string is answered with the
400 "Please send a question." error reply, and neither provider is called
(the trace is empty). -/
theorem C4_blank_question_rejected (embed : EmbedProvider) (generate : GenProvider)
    (vectors : List (List ℚ)) (items : List FaqItem) (q : String)
    (hq : pyStrip q = "") :
    faq_endpoint embed generate vectors items q =
      (Except.ok (FaqResponse.badRequest "Please send a question."), ⟨[], []⟩) :=
  faq_endpoint_blank embed generate vectors items q hq

/-- Concrete instances of claim C4 at the empty and the all-blank question,
with poisoned providers whose use would end in Except.error. -/
theorem C4_witness :
    faq_endpoint (fun _ => ProviderJson.okNonJson) (fun _ => ProviderJson.okNonJson)
      [[1]] [⟨"q1", "a1"⟩] "" =
      (Except.ok (FaqResponse.badRequest "Please send a question."), ⟨[], []⟩) ∧
    faq_endpoint (fun _ => ProviderJson.okNonJson) (fun _ => ProviderJson.okNonJson)
      [[1]] [⟨"q1", "a1"⟩] "   " =
      (Except.ok (FaqResponse.badRequest "Please send a question."), ⟨[], []⟩) :=
  ⟨C4_blank_question_rejected _ _ _ _ "" (by decide),
   C4_blank_question_rejected _ _ _ _ "   " (by decide)⟩

/-! ## Claim C6 -/

/-- Claim C6: when embedding the query fails (request exception, or a JSON
body without an embedding field), the endpoint returns the fallback reply
with score 0 and no match_question field, and no completion call is attempted
(the generate trace is empty). -/
theorem C6_embedding_failure_fallback (embed : EmbedProvider) (generate : GenProvider)
    (vectors : List (List ℚ)) (items : List FaqItem) (q : String)
    (hq : pyStrip q ≠ "")
    (hE : (∃ exc, embed (pyStrip q) = ProviderJson.requestError exc) ∨
      embed (pyStrip q) = ProviderJson.okJson none) :
    faq_endpoint embed generate vectors items q =
      (Except.ok (FaqResponse.noMatch no_match_answer 0), ⟨[pyStrip q], []⟩) := by
  have hget : get_embedding embed (pyStrip q) = Except.ok none := by
    rcases hE with ⟨exc, he⟩ | he
    · simp [get_embedding, he]
    · simp [get_embedding, he]
  have hrank : rank_faq_items embed vectors items (pyStrip q) =
      Except.ok ([] : List (ℝ × FaqItem)) := by
    simp [rank_faq_items, hget]
  have h := faq_endpoint_empty_ranked embed generate vectors items q hq hrank
  rwa [round3_zero] at h

/-- Concrete instance of claim C6 with an always-failing embeddings provider.
-/
theorem C6_witness :
    faq_endpoint (fun _ => ProviderJson.requestError "connection refused")
      (fun _ => ProviderJson.okNonJson) [[1]] [⟨"q1", "a1"⟩] "anything" =
      (Except.ok (FaqResponse.noMatch no_match_answer 0), ⟨["anything"], []⟩) := by
  have h := C6_embedding_failure_fallback
    (fun _ => ProviderJson.requestError "connection refused")
    (fun _ => ProviderJson.okNonJson) [[1]] [⟨"q1", "a1"⟩] "anything"
    (by decide) (Or.inl ⟨"connection refused", rfl⟩)
  rwa [show pyStrip "anything" = "anything" from by decide] at h

/-! ## Claim C10 -/

/-- Claim C10: when the completion provider answers 2xx with JSON lacking a
response field, data.get("response", context_answer) falls back to the
retrieved corpus answer, so the endpoint returns the stored answer verbatim.
-/
theorem C10_missing_response_field_returns_corpus_answer
    (embed : EmbedProvider) (generate : GenProvider)
    (vectors : List (List ℚ)) (items : List FaqItem) (q : String)
    (s : ℝ) (it : FaqItem) (rest : List (ℝ × FaqItem))
    (hq : pyStrip q ≠ "")
    (hrank : rank_faq_items embed vectors items (pyStrip q) =
      Except.ok ((s, it) :: rest))
    (hs : ¬ s < 0.5)
    (hG : generate (ollama_prompt (pyStrip q) it.answer) = ProviderJson.okJson none) :
    faq_endpoint embed generate vectors items q =
      (Except.ok (FaqResponse.matched it.answer it.question (round3 s)),
        ⟨[pyStrip q], [ollama_prompt (pyStrip q) it.answer]⟩) :=
  faq_endpoint_gen_result embed generate vectors items q s it rest it.answer hq
    hrank hs (by simp [call_ollama_with_context, hG])

/-- Concrete instance of claim C10: the reply text is exactly the stored
corpus answer "a1". -/
theorem C10_witness :
    faq_endpoint (fun _ => ProviderJson.okJson (some [1]))
      (fun _ => ProviderJson.okJson none) [[1]] [⟨"q1", "a1"⟩] "hi" =
      (Except.ok (FaqResponse.matched "a1" "q1" 1),
        ⟨["hi"], [ollama_prompt "hi" "a1"]⟩) := by
  have hrank : rank_faq_items (fun _ => ProviderJson.okJson (some [1])) [[1]]
      [(⟨"q1", "a1"⟩ : FaqItem)] (pyStrip "hi") =
      Except.ok [(cosine_similarity [1] [1], ⟨"q1", "a1"⟩)] := by
    simp [rank_faq_items, get_embedding, scored_items]
  have h := C10_missing_response_field_returns_corpus_answer
    (fun _ => ProviderJson.okJson (some [1])) (fun _ => ProviderJson.okJson none)
    [[1]] [⟨"q1", "a1"⟩] "hi" (cosine_similarity [1] [1]) ⟨"q1", "a1"⟩ []
    (by decide) hrank (by rw [cosine_one]; norm_num) rfl
  rw [show pyStrip "hi" = "hi" from by decide, cosine_one, round3_one] at h
  exact h

/-! ## Claim C5 -/

/-- Claim C5 (amended): when ranking succeeds with a top score at or above
0.5 and the completion provider raises, the endpoint still returns a matched
reply carrying the matched question and the top score rounded to three
decimals, with the degraded-service text. -/
theorem C5_completion_failure_degraded
    (embed : EmbedProvider) (generate : GenProvider)
    (vectors : List (List ℚ)) (items : List FaqItem) (q : String)
    (s : ℝ) (it : FaqItem) (rest : List (ℝ × FaqItem)) (exc : String)
    (hq : pyStrip q ≠ "")
    (hrank : rank_faq_items embed vectors items (pyStrip q) =
      Except.ok ((s, it) :: rest))
    (hs : ¬ s < 0.5)
    (hG : generate (ollama_prompt (pyStrip q) it.answer) =
      ProviderJson.requestError exc) :
    faq_endpoint embed generate vectors items q =
      (Except.ok (FaqResponse.matched (degraded_answer exc) it.question (round3 s)),
        ⟨[pyStrip q], [ollama_prompt (pyStrip q) it.answer]⟩) :=
  faq_endpoint_gen_result embed generate vectors items q s it rest
    (degraded_answer exc) hq hrank hs (by simp [call_ollama_with_context, hG])

/-- Concrete instance of the amended claim C5. -/
theorem C5_witness :
    faq_endpoint (fun _ => ProviderJson.okJson (some [1]))
      (fun _ => ProviderJson.requestError "model offline") [[1]]
      [⟨"q1", "a1"⟩] "hi" =
      (Except.ok (FaqResponse.matched (degraded_answer "model offline") "q1" 1),
        ⟨["hi"], [ollama_prompt "hi" "a1"]⟩) := by
  have hrank : rank_faq_items (fun _ => ProviderJson.okJson (some [1])) [[1]]
      [(⟨"q1", "a1"⟩ : FaqItem)] (pyStrip "hi") =
      Except.ok [(cosine_similarity [1] [1], ⟨"q1", "a1"⟩)] := by
    simp [rank_faq_items, get_embedding, scored_items]
  have h := C5_completion_failure_degraded
    (fun _ => ProviderJson.okJson (some [1]))
    (fun _ => ProviderJson.requestError "model offline") [[1]] [⟨"q1", "a1"⟩]
    "hi" (cosine_similarity [1] [1]) ⟨"q1", "a1"⟩ [] "model offline"
    (by decide) hrank (by rw [cosine_one]; norm_num) rfl
  rw [show pyStrip "hi" = "hi" from by decide, cosine_one, round3_one] at h
  exact h

/-- Claim C5 as stated is false at a concrete input: the corpus vector [12, 5]
scores 12/13 ≥ 0.5 against the query vector [1, 0], the completion provider
fails, and the reply carries match_score 923/1000, which is not the top score
12/13 (the code rounds to three decimals). -/
theorem C5_counterexample :
    rank_faq_items (fun _ => ProviderJson.okJson (some [1, 0])) [[12, 5]]
      [(⟨"pw", "use the reset link"⟩ : FaqItem)] "reset" =
      Except.ok [((12 : ℝ) / 13, ⟨"pw", "use the reset link"⟩)] ∧
    ¬ (12 : ℝ) / 13 < 0.5 ∧
    faq_endpoint (fun _ => ProviderJson.okJson (some [1, 0]))
      (fun _ => ProviderJson.requestError "model offline") [[12, 5]]
      [⟨"pw", "use the reset link"⟩] "reset" =
      (Except.ok (FaqResponse.matched (degraded_answer "model offline") "pw"
        (923 / 1000)),
        ⟨["reset"], [ollama_prompt "reset" "use the reset link"]⟩) ∧
    (923 : ℝ) / 1000 ≠ 12 / 13 := by
  have hrank : rank_faq_items (fun _ => ProviderJson.okJson (some [1, 0])) [[12, 5]]
      [(⟨"pw", "use the reset link"⟩ : FaqItem)] "reset" =
      Except.ok [((12 : ℝ) / 13, ⟨"pw", "use the reset link"⟩)] := by
    simp [rank_faq_items, get_embedding, scored_items, cosine_twelve_thirteenths]
  refine ⟨hrank, by norm_num, ?_, by norm_num⟩
  have hrank2 : rank_faq_items (fun _ => ProviderJson.okJson (some [1, 0])) [[12, 5]]
      [(⟨"pw", "use the reset link"⟩ : FaqItem)] (pyStrip "reset") =
      Except.ok [((12 : ℝ) / 13, ⟨"pw", "use the reset link"⟩)] := by
    rw [show pyStrip "reset" = "reset" from by decide]
    exact hrank
  have h := faq_endpoint_gen_result (fun _ => ProviderJson.okJson (some [1, 0]))
    (fun _ => ProviderJson.requestError "model offline") [[12, 5]]
    [⟨"pw", "use the reset link"⟩] "reset" ((12 : ℝ) / 13)
    ⟨"pw", "use the reset link"⟩ [] (degraded_answer "model offline")
    (by decide) hrank2 (by norm_num) (by simp [call_ollama_with_context])
  rw [show pyStrip "reset" = "reset" from by decide, round3_twelve_thirteenths] at h
  exact h

/-! ## Claim C7 -/

/-- Claim C7 (amended): when the ranked list is empty or its top score is
below 0.5, the endpoint returns the fixed no-close-match reply with no
match_question field, and the reply's score is the top score rounded to three
decimals when an entry existed and 0 otherwise. -/
theorem C7_below_threshold_fallback (embed : EmbedProvider) (generate : GenProvider)
    (vectors : List (List ℚ)) (items : List FaqItem) (q : String)
    (ranked : List (ℝ × FaqItem))
    (hq : pyStrip q ≠ "")
    (hrank : rank_faq_items embed vectors items (pyStrip q) = Except.ok ranked) :
    (ranked = [] → faq_endpoint embed generate vectors items q =
      (Except.ok (FaqResponse.noMatch no_match_answer 0), ⟨[pyStrip q], []⟩)) ∧
    (∀ s it rest, ranked = (s, it) :: rest → s < 0.5 →
      faq_endpoint embed generate vectors items q =
        (Except.ok (FaqResponse.noMatch no_match_answer (round3 s)),
          ⟨[pyStrip q], []⟩)) := by
  constructor
  · rintro rfl
    have h := faq_endpoint_empty_ranked embed generate vectors items q hq hrank
    rwa [round3_zero] at h
  · rintro s it rest rfl hs
    exact faq_endpoint_low_score embed generate vectors items q s it rest hq hrank hs

/-- Concrete instances of the amended claim C7: an empty corpus yields the
fallback with score 0, and a sole entry scoring 5/13 yields the fallback with
score 385/1000. -/
theorem C7_witness :
    faq_endpoint (fun _ => ProviderJson.okJson (some [1]))
      (fun _ => ProviderJson.okNonJson) [] [] "hello" =
      (Except.ok (FaqResponse.noMatch no_match_answer 0), ⟨["hello"], []⟩) ∧
    faq_endpoint (fun _ => ProviderJson.okJson (some [1, 0]))
      (fun _ => ProviderJson.okNonJson) [[5, 12]] [⟨"pw", "use the reset link"⟩]
      "hello" =
      (Except.ok (FaqResponse.noMatch no_match_answer (385 / 1000)),
        ⟨["hello"], []⟩) := by
  constructor
  · have h := (C7_below_threshold_fallback (fun _ => ProviderJson.okJson (some [1]))
      (fun _ => ProviderJson.okNonJson) [] [] "hello" [] (by decide)
      (by simp [rank_faq_items, get_embedding, scored_items])).1 rfl
    rwa [show pyStrip "hello" = "hello" from by decide] at h
  · have hrank : rank_faq_items (fun _ => ProviderJson.okJson (some [1, 0]))
        [[5, 12]] [(⟨"pw", "use the reset link"⟩ : FaqItem)] (pyStrip "hello") =
        Except.ok [((5 : ℝ) / 13, ⟨"pw", "use the reset link"⟩)] := by
      simp [rank_faq_items, get_embedding, scored_items, cosine_five_thirteenths]
    have h := (C7_below_threshold_fallback (fun _ => ProviderJson.okJson (some [1, 0]))
      (fun _ => ProviderJson.okNonJson) [[5, 12]] [⟨"pw", "use the reset link"⟩]
      "hello" [((5 : ℝ) / 13, ⟨"pw", "use the reset link"⟩)] (by decide) hrank).2
      ((5 : ℝ) / 13) ⟨"pw", "use the reset link"⟩ [] rfl (by norm_num)
    rwa [show pyStrip "hello" = "hello" from by decide, round3_five_thirteenths] at h

/-- Claim C7 as stated is false at a concrete input: the sole entry scores
5/13 < 0.5, and the fallback reply carries match_score 385/1000, which is not
the top score 5/13 (the code rounds to three decimals). -/
theorem C7_counterexample :
    rank_faq_items (fun _ => ProviderJson.okJson (some [1, 0])) [[5, 12]]
      [(⟨"pw", "use the reset link"⟩ : FaqItem)] "reset" =
      Except.ok [((5 : ℝ) / 13, ⟨"pw", "use the reset link"⟩)] ∧
    (5 : ℝ) / 13 < 0.5 ∧
    faq_endpoint (fun _ => ProviderJson.okJson (some [1, 0]))
      (fun _ => ProviderJson.okNonJson) [[5, 12]] [⟨"pw", "use the reset link"⟩]
      "reset" =
      (Except.ok (FaqResponse.noMatch no_match_answer (385 / 1000)),
        ⟨["reset"], []⟩) ∧
    (385 : ℝ) / 1000 ≠ 5 / 13 := by
  have hrank : rank_faq_items (fun _ => ProviderJson.okJson (some [1, 0])) [[5, 12]]
      [(⟨"pw", "use the reset link"⟩ : FaqItem)] "reset" =
      Except.ok [((5 : ℝ) / 13, ⟨"pw", "use the reset link"⟩)] := by
    simp [rank_faq_items, get_embedding, scored_items, cosine_five_thirteenths]
  refine ⟨hrank, by norm_num, ?_, by norm_num⟩
  have hrank2 : rank_faq_items (fun _ => ProviderJson.okJson (some [1, 0])) [[5, 12]]
      [(⟨"pw", "use the reset link"⟩ : FaqItem)] (pyStrip "reset") =
      Except.ok [((5 : ℝ) / 13, ⟨"pw", "use the reset link"⟩)] := by
    rw [show pyStrip "reset" = "reset" from by decide]
    exact hrank
  have h := faq_endpoint_low_score (fun _ => ProviderJson.okJson (some [1, 0]))
    (fun _ => ProviderJson.okNonJson) [[5, 12]] [⟨"pw", "use the reset link"⟩]
    "reset" ((5 : ℝ) / 13) ⟨"pw", "use the reset link"⟩ [] (by decide) hrank2
    (by norm_num)
  rwa [show pyStrip "reset" = "reset" from by decide, round3_five_thirteenths] at h

/-! ## Claim C1 -/

/-- Claim C1 is contradicted by the code: when a provider answers HTTP 2xx
with a body that is not valid JSON, response.json() is evaluated outside the
try block (faq_bot.py lines 56 and 122), so the exception escapes
faq_endpoint instead of being converted into a degraded reply.  Both the
embedding-side and the completion-side evaluations are recorded here; the
model renders the escaping exception as Except.error (). -/
theorem C1_malformed_json_raises :
    faq_endpoint (fun _ => ProviderJson.okNonJson) (fun _ => ProviderJson.okNonJson)
      [[1]] [⟨"q1", "a1"⟩] "How do I reset my password?" =
      (Except.error (), ⟨["How do I reset my password?"], []⟩) ∧
    faq_endpoint (fun _ => ProviderJson.okJson (some [1]))
      (fun _ => ProviderJson.okNonJson) [[1]] [⟨"q1", "a1"⟩]
      "How do I reset my password?" =
      (Except.error (), ⟨["How do I reset my password?"],
        [ollama_prompt "How do I reset my password?" "a1"]⟩) := by
  constructor
  · have h := faq_endpoint_embed_raise (fun _ => ProviderJson.okNonJson)
      (fun _ => ProviderJson.okNonJson) [[1]] [⟨"q1", "a1"⟩]
      "How do I reset my password?" (by decide)
      (by simp [rank_faq_items, get_embedding])
    rwa [show pyStrip "How do I reset my password?" = "How do I reset my password?"
      from by decide] at h
  · have hrank : rank_faq_items (fun _ => ProviderJson.okJson (some [1])) [[1]]
        [(⟨"q1", "a1"⟩ : FaqItem)] (pyStrip "How do I reset my password?") =
        Except.ok [(cosine_similarity [1] [1], ⟨"q1", "a1"⟩)] := by
      simp [rank_faq_items, get_embedding, scored_items]
    have h := faq_endpoint_gen_raise (fun _ => ProviderJson.okJson (some [1]))
      (fun _ => ProviderJson.okNonJson) [[1]] [⟨"q1", "a1"⟩]
      "How do I reset my password?" (cosine_similarity [1] [1]) ⟨"q1", "a1"⟩ []
      (by decide) hrank (by rw [cosine_one]; norm_num)
      (by simp [call_ollama_with_context])
    rwa [show pyStrip "How do I reset my password?" = "How do I reset my password?"
      from by decide] at h

/-! ## Claim C8 -/

/-- Claim C8 is contradicted by the code on its continue-instead-of-aborting
part: when the embeddings provider answers HTTP 2xx with a non-JSON body
while an entry is being embedded, response.json() raises outside the try
block of get_embedding and the whole index build aborts with an escaping
exception, instead of recording an empty vector for the entry and continuing.
-/
theorem C8_build_aborts_on_malformed_json :
    build_repository_with_embeddings (fun _ => ProviderJson.okNonJson)
      [⟨"How do I reset my password?", "Use the reset link."⟩] =
      Except.error () := rfl

/-- The parts of claim C8 the code does satisfy, shown on builds that finish
without an escaping exception: the items are returned unchanged (same length,
same order) with one vector each. -/
theorem build_repository_length_order (provider : EmbedProvider) :
    ∀ (faq_items : List FaqItem) (out : List FaqItem × List (List ℚ)),
      build_repository_with_embeddings provider faq_items = Except.ok out →
      out.1 = faq_items ∧ out.2.length = faq_items.length := by
  have hlen : ∀ (faq_items : List FaqItem) (vs : List (List ℚ)),
      build_vectors provider faq_items = Except.ok vs →
      vs.length = faq_items.length := by
    intro faq_items
    induction faq_items with
    | nil =>
      intro vs h
      simp only [build_vectors, Except.ok.injEq] at h
      rw [← h]
      rfl
    | cons item rest ih =>
      intro vs h
      simp only [build_vectors] at h
      cases hge : get_embedding provider (embed_input item) with
      | error e => rw [hge] at h; cases h
      | ok o =>
        cases o with
        | none =>
          rw [hge] at h
          cases hbv : build_vectors provider rest with
          | error e => rw [hbv] at h; cases h
          | ok ws =>
            rw [hbv] at h
            simp only [Except.ok.injEq] at h
            rw [← h]
            simp [ih ws hbv]
        | some v =>
          rw [hge] at h
          cases hbv : build_vectors provider rest with
          | error e => rw [hbv] at h; cases h
          | ok ws =>
            rw [hbv] at h
            simp only [Except.ok.injEq] at h
            rw [← h]
            simp [ih ws hbv]
  intro faq_items out h
  simp only [build_repository_with_embeddings] at h
  cases hbv : build_vectors provider faq_items with
  | error e => rw [hbv] at h; cases h
  | ok vs =>
    rw [hbv] at h
    simp only [Except.ok.injEq] at h
    rw [← h]
    exact ⟨rfl, hlen faq_items vs hbv⟩

/-- A failed embedding that does not raise (a caught request exception)
records the empty vector for its entry and the build continues. -/
theorem build_vectors_records_empty (provider : EmbedProvider)
    (item : FaqItem) (rest : List FaqItem) (vs : List (List ℚ))
    (hfail : get_embedding provider (embed_input item) = Except.ok none)
    (hrest : build_vectors provider rest = Except.ok vs) :
    build_vectors provider (item :: rest) = Except.ok ([] :: vs) := by
  simp [build_vectors, hfail, hrest]

end FaqBot
